import Mathlib

/-!
Verification of the git line-diff counter extension (src/extension.ts, the
variant with per-file total lines, explicit error states and debounced
rendering).  The computation pipeline is embedded shallowly: the host editor
and the git tool are modelled as an environment record supplying the
workspace root, the repository check, the two numeric diffs, the status
listing, the on-disk file contents and the history lookups.  A git or
filesystem call that can throw is modelled as an `Option` result, `none`
standing for the thrown error at that call site.
-/

/-! ## JavaScript string primitives

The source uses `String.prototype.split` with a single-character separator,
`String.prototype.trim`, and template-literal number formatting.  These are
modelled structurally over the character list of the string so that every
definition evaluates by kernel reduction. -/

/-- JS `s.split(sep)` for a one-character separator, over character lists.
On the empty list it yields `[[]]`, matching `"".split(c)` giving `[""]`. -/
def splitOnChar (sep : Char) : List Char → List (List Char)
  | [] => [[]]
  | c :: rest =>
    match splitOnChar sep rest with
    | [] => if c == sep then [[], []] else [[c]]
    | g :: gs => if c == sep then [] :: g :: gs else (c :: g) :: gs

/-- JS `s.split(sep)` for a one-character separator. -/
def jsSplit (sep : Char) (s : String) : List String :=
  (splitOnChar sep s.data).map String.mk

/-- JS `s.trim()`: strip leading and trailing whitespace. -/
def jsTrim (s : String) : String :=
  String.mk (((s.data.dropWhile Char.isWhitespace).reverse.dropWhile
    Char.isWhitespace).reverse)

/-- Decimal value of a list of digit characters, most significant first. -/
def digitsToNat (ds : List Char) : Nat :=
  ds.foldl (fun acc c => acc * 10 + (c.toNat - 48)) 0

/-- JS `parseInt(s)` in radix 10: skip leading whitespace, consume an
optional sign and then a maximal run of decimal digits; the result is NaN
(modelled as `none`) when no digit is consumed.  The `0x` hex-prefix special
case of `parseInt` is not modelled; numstat fields never carry it. -/
def jsParseInt (s : String) : Option Int :=
  match s.data.dropWhile Char.isWhitespace with
  | [] => none
  | c :: rest =>
    if c == '-' then
      match rest.takeWhile Char.isDigit with
      | [] => none
      | ds => some (-(digitsToNat ds : Int))
    else if c == '+' then
      match rest.takeWhile Char.isDigit with
      | [] => none
      | ds => some ((digitsToNat ds : Int))
    else
      match (c :: rest).takeWhile Char.isDigit with
      | [] => none
      | ds => some ((digitsToNat ds : Int))

/-- The idiom `parseInt(x) || 0` from the numstat parsing loops: NaN is
mapped to 0 (and a parsed 0, also falsy in JS, stays 0). -/
def parseIntOr0 (s : String) : Int :=
  (jsParseInt s).getD 0

/-- Line count used throughout the source: `content.split('\n').length`.
A trailing newline therefore contributes one extra (empty) segment. -/
def countLines (content : String) : Nat :=
  (splitOnChar '\n' content.data).length

/-! ## Data model (the FileChange and LineStats interfaces) -/

/-- The `status` field of a FileChange: `'New' | 'Mod' | 'Del'`. -/
inductive FileStatus where
  | New
  | Mod
  | Del
deriving DecidableEq, Repr

/-- One entry of the simple-git status listing: the path with its index and
working-tree state characters. -/
structure StatusFile where
  path : String
  index : Char
  working_dir : Char
deriving DecidableEq, Repr

/-- The FileChange interface: one changed file with its per-file counts. -/
structure FileChange where
  path : String
  linesAdded : Int
  linesDeleted : Int
  netLines : Int
  status : FileStatus
  totalLines : Nat
deriving DecidableEq, Repr

/-- The explicit error states of the LineStats result. -/
inductive StatsError where
  | NO_WORKSPACE
  | NO_REPO
deriving DecidableEq, Repr

/-- The LineStats interface: aggregate result of one computation pass. -/
structure LineStats where
  changesLinesAdded : Int
  changesLinesDeleted : Int
  changesFiles : List FileChange
  stagedLinesAdded : Int
  stagedLinesDeleted : Int
  stagedFiles : List FileChange
  error : Option StatsError := none
deriving DecidableEq, Repr

/-- Environment supplied by the host editor and the git tool during one
computation pass.  `workingDiff`, `statusFiles` and `stagedDiff` are the
results of the three collection calls, `none` modelling a thrown error
caught by the outer handler of getLineStats.  `disk` maps a repository
relative path to the on-disk file content (the source joins it to the
workspace root before the existence check), `showHEAD p` is
`git.show ['HEAD:' + p]`, `logFollow p` is the hash list of
`git.log --follow -- p` (`none` when the call throws), and `showAt h p` is
`git.show [h + ':' + p]`. -/
structure GitEnv where
  rootPath : Option String
  isRepo : Bool
  workingDiff : Option String
  statusFiles : Option (List StatusFile)
  stagedDiff : Option String
  disk : String → Option String
  showHEAD : String → Option String
  logFollow : String → Option (List String)
  showAt : String → String → Option String

/-! ## File resolver (getFileTotalLines / getDeletedFileLinesFromGit) -/

/-- History fallback for a path with no on-disk copy: read the content from
HEAD; if that throws, list the commits that touched the path (following
renames) and read it from the most recent one; any remaining failure
degrades to 0.  The source re-reads the same workspace root inside the
inner handler; with a fixed environment that is the value already matched
here.  Every failure is caught, so the function is total and never
propagates an error. -/
def getDeletedFileLinesFromGit (env : GitEnv) (filePath : String) : Nat :=
  match env.rootPath with
  | none => 0
  | some _ =>
    match env.showHEAD filePath with
    | some content => countLines content
    | none =>
      match env.logFollow filePath with
      | none => 0
      | some [] => 0
      | some (h :: _) =>
        match env.showAt h filePath with
        | some content => countLines content
        | none => 0

/-- Total-line resolution: read from disk when the file exists under the
workspace root, otherwise fall back to the git history; total, never
propagates an error. -/
def getFileTotalLines (env : GitEnv) (filePath : String) : Nat :=
  match env.rootPath with
  | none => 0
  | some _ =>
    match env.disk filePath with
    | some content => countLines content
    | none => getDeletedFileLinesFromGit env filePath

/-! ## Diff collector and aggregator (getLineStats) -/

/-- The numstat post-processing shared by both areas:
`diff.trim().split('\n')` followed by the `if (line.trim())` guard that
skips blank lines. -/
def diffLines (raw : String) : List String :=
  (jsSplit '\n' (jsTrim raw)).filter (fun l => jsTrim l != "")

/-- The destructuring `const [added, removed, path] = line.split('\t')`.
A missing component is undefined in JS, which `parseInt` maps to NaN and
the status lookup never matches; it is modelled as the empty string. -/
def numstatFields (line : String) : String × String × String :=
  match jsSplit '\t' line with
  | [] => ("", "", "")
  | [a] => (a, "", "")
  | [a, r] => (a, r, "")
  | a :: r :: p :: _ => (a, r, p)

/-- `status.files.find(f => f.path === path)` followed by the New/Del
override on the given slot (working-tree slot for the unstaged area, index
slot for the staged area); the default is Mod. -/
def classifyWith (slot : StatusFile → Char) (files : List StatusFile)
    (p : String) : FileStatus :=
  match files.find? (fun f => f.path == p) with
  | none => FileStatus.Mod
  | some sf =>
    if slot sf == 'A' then FileStatus.New
    else if slot sf == 'D' then FileStatus.Del
    else FileStatus.Mod

/-- The FileChange record pushed for one numstat line of an area. -/
def mkDiffFileChange (env : GitEnv) (files : List StatusFile)
    (slot : StatusFile → Char) (line : String) : FileChange :=
  let f := numstatFields line
  let add := parseIntOr0 f.1
  let del := parseIntOr0 f.2.1
  { path := f.2.2
    linesAdded := add
    linesDeleted := del
    netLines := add - del
    status := classifyWith slot files f.2.2
    totalLines := getFileTotalLines env f.2.2 }

/-- The FileChange record pushed for one untracked file: wholly new, with
the resolved total line count standing in for the added lines. -/
def mkUntrackedFileChange (env : GitEnv) (f : StatusFile) : FileChange :=
  let t := getFileTotalLines env f.path
  { path := f.path
    linesAdded := (t : Int)
    linesDeleted := 0
    netLines := (t : Int)
    status := FileStatus.New
    totalLines := t }

/-- `files.sort((a, b) => b.netLines - a.netLines)`: the ES2019 array sort
is stable, and this comparator orders by netLines descending; modelled by
the stable merge sort with the corresponding ordering. -/
def sortByNetDesc (l : List FileChange) : List FileChange :=
  l.mergeSort (fun a b => decide (b.netLines ≤ a.netLines))

/-- The untracked selection `status.files.filter(f => f.working_dir === '?')`. -/
def untrackedOf (files : List StatusFile) : List StatusFile :=
  files.filter (fun f => f.working_dir == '?')

/-- The changes-area file list in construction order: the numstat records
of the working-tree diff followed by the untracked records. -/
def changesRawFiles (env : GitEnv) (wd : String)
    (files : List StatusFile) : List FileChange :=
  (diffLines wd).map (mkDiffFileChange env files (fun f => f.working_dir))
    ++ (untrackedOf files).map (mkUntrackedFileChange env)

/-- The staged-area file list in construction order. -/
def stagedRawFiles (env : GitEnv) (sd : String)
    (files : List StatusFile) : List FileChange :=
  (diffLines sd).map (mkDiffFileChange env files (fun f => f.index))

/-- Sum of an integer-valued field over a list. -/
def sumIntBy (f : α → Int) (l : List α) : Int :=
  (l.map f).sum

/-- The `changesLinesAdded` accumulator: the adds of the numstat loop plus,
from the untracked loop, each resolved total line count. -/
def changesAddedAcc (env : GitEnv) (wd : String)
    (files : List StatusFile) : Int :=
  sumIntBy (fun l => parseIntOr0 (numstatFields l).1) (diffLines wd)
    + sumIntBy (fun f => ((getFileTotalLines env f.path : Nat) : Int))
        (untrackedOf files)

/-- The `changesLinesDeleted` accumulator: only the numstat loop adds to
it; the untracked loop contributes nothing. -/
def changesDeletedAcc (wd : String) : Int :=
  sumIntBy (fun l => parseIntOr0 (numstatFields l).2.1) (diffLines wd)

/-- The `stagedLinesAdded` accumulator. -/
def stagedAddedAcc (sd : String) : Int :=
  sumIntBy (fun l => parseIntOr0 (numstatFields l).1) (diffLines sd)

/-- The `stagedLinesDeleted` accumulator. -/
def stagedDeletedAcc (sd : String) : Int :=
  sumIntBy (fun l => parseIntOr0 (numstatFields l).2.1) (diffLines sd)

/-- The LineStats value returned on the success path of getLineStats. -/
def mkSuccessStats (env : GitEnv) (wd : String) (files : List StatusFile)
    (sd : String) : LineStats :=
  { changesLinesAdded := changesAddedAcc env wd files
    changesLinesDeleted := changesDeletedAcc wd
    changesFiles := sortByNetDesc (changesRawFiles env wd files)
    stagedLinesAdded := stagedAddedAcc sd
    stagedLinesDeleted := stagedDeletedAcc sd
    stagedFiles := sortByNetDesc (stagedRawFiles env sd files)
    error := none }

/-- The LineStats value returned for the two explicit error states: zero
sums, empty file lists, and the error tag. -/
def emptyStatsWith (e : StatsError) : LineStats :=
  { changesLinesAdded := 0
    changesLinesDeleted := 0
    changesFiles := []
    stagedLinesAdded := 0
    stagedLinesDeleted := 0
    stagedFiles := []
    error := some e }

/-- The computation pass.  A missing workspace root and a non-repository
root yield the explicit error states; a collection call that throws is
caught by the outer handler and collapses the result to `none`. -/
def getLineStats (env : GitEnv) : Option LineStats :=
  match env.rootPath with
  | none => some (emptyStatsWith StatsError.NO_WORKSPACE)
  | some _ =>
    if env.isRepo then
      match env.workingDiff, env.statusFiles, env.stagedDiff with
      | some wd, some files, some sd => some (mkSuccessStats env wd files sd)
      | _, _, _ => none
    else some (emptyStatsWith StatsError.NO_REPO)

/-! ## Formatter (the pure part of updateStatusBar)

The debounce timer and the writes to the status bar item are host plumbing;
the string computation on a completed pass result is modelled as a pure
function from the pass result to the displayed text and tooltip. -/

/-- The two strings written to the display sink. -/
structure Display where
  text : String
  tooltip : String
deriving DecidableEq, Repr

/-- The template `${n >= 0 ? '+' : ''}${n}`: an explicit leading plus for a
non-negative value, the minus of the number itself otherwise. -/
def signed (n : Int) : String :=
  (if 0 ≤ n then "+" else "") ++ toString n

/-- Rendering of the status union into its literal. -/
def FileStatus.render : FileStatus → String
  | FileStatus.New => "New"
  | FileStatus.Mod => "Mod"
  | FileStatus.Del => "Del"

/-- Node `path.basename`: the final path segment, ignoring trailing
separators. -/
def basename (p : String) : String :=
  String.mk ((splitOnChar '/'
    ((p.data.reverse.dropWhile (fun c => c == '/')).reverse)).getLastD [])

/-- JS `array.join(sep)`. -/
def joinWith (sep : String) : List String → String
  | [] => ""
  | [x] => x
  | x :: y :: xs => x ++ sep ++ joinWith sep (y :: xs)

/-- `changesNetLines`, the unstaged net. -/
def changesNet (s : LineStats) : Int :=
  s.changesLinesAdded - s.changesLinesDeleted

/-- `stagedNetLines`, the staged net. -/
def stagedNet (s : LineStats) : Int :=
  s.stagedLinesAdded - s.stagedLinesDeleted

/-- One tooltip file row:
two spaces, net, `(+add-del)=total [status] basename`. -/
def fileRow (f : FileChange) : String :=
  "  " ++ signed f.netLines ++ " (+" ++ toString f.linesAdded ++ "-"
    ++ toString f.linesDeleted ++ ")=" ++ toString f.totalLines ++ " ["
    ++ f.status.render ++ "] " ++ basename f.path

/-- The status-bar body for the numeric (error-free) case.  The single-area
test is `hasStaged XOR hasChanges`; in that case the one nonzero area is
rendered without a label, otherwise each nonzero area is rendered with its
label and a total segment is appended; the literal `Clean` is appended
exactly when both nets are zero.  The source duplicates the identical
single-area template in both arms of its `if (hasStaged)`. -/
def renderStatsText (s : LineStats) : String :=
  let text := "$(git-commit) " ++
    (if (stagedNet s ≠ 0 ∧ ¬changesNet s ≠ 0)
        ∨ (¬stagedNet s ≠ 0 ∧ changesNet s ≠ 0) then
      signed (if stagedNet s ≠ 0 then stagedNet s else changesNet s)
        ++ " (+"
        ++ toString (if stagedNet s ≠ 0 then s.stagedLinesAdded
            else s.changesLinesAdded)
        ++ "-"
        ++ toString (if stagedNet s ≠ 0 then s.stagedLinesDeleted
            else s.changesLinesDeleted)
        ++ ")"
    else
      (if stagedNet s ≠ 0 then
        "Staged:" ++ signed (stagedNet s) ++ " (+"
          ++ toString s.stagedLinesAdded ++ "-"
          ++ toString s.stagedLinesDeleted ++ ")"
      else "")
      ++ (if changesNet s ≠ 0 then
        (if stagedNet s ≠ 0 then ", " else "")
          ++ "Changes:" ++ signed (changesNet s) ++ " (+"
          ++ toString s.changesLinesAdded ++ "-"
          ++ toString s.changesLinesDeleted ++ ")"
      else "")
      ++ (if stagedNet s ≠ 0 ∨ changesNet s ≠ 0 then
        ", Total:" ++ signed (changesNet s + stagedNet s) ++ " (+"
          ++ toString (s.stagedLinesAdded + s.changesLinesAdded) ++ "-"
          ++ toString (s.stagedLinesDeleted + s.changesLinesDeleted) ++ ")"
      else ""))
  if stagedNet s = 0 ∧ changesNet s = 0 then text ++ "Clean" else text

/-- The tooltip for the numeric case: the staged block, the changes block
(each a header line followed by one row per file), and the total line,
joined with a newline; the second and third headers carry a leading newline
of their own. -/
def renderStatsTooltip (s : LineStats) : String :=
  joinWith "\n"
    ((("Staged: " ++ signed (stagedNet s) ++ " (+"
        ++ toString s.stagedLinesAdded ++ "-"
        ++ toString s.stagedLinesDeleted ++ ")")
      :: s.stagedFiles.map fileRow)
    ++ (("\nChanges: " ++ signed (changesNet s) ++ " (+"
        ++ toString s.changesLinesAdded ++ "-"
        ++ toString s.changesLinesDeleted ++ ")")
      :: s.changesFiles.map fileRow)
    ++ ["\nTotal: " ++ signed (changesNet s + stagedNet s) ++ " (+"
        ++ toString (s.stagedLinesAdded + s.changesLinesAdded) ++ "-"
        ++ toString (s.stagedLinesDeleted + s.changesLinesDeleted) ++ ")"])

/-- The display written for one completed pass: the generic failure first,
then the two explicit error states, then the numeric rendering. -/
def updateStatusBarDisplay (stats : Option LineStats) : Display :=
  match stats with
  | none =>
    { text := "$(git-commit) Git: Error", tooltip := "Error getting git status" }
  | some s =>
    if s.error = some StatsError.NO_WORKSPACE then
      { text := "$(git-commit) Git: No workspace"
        tooltip := "No workspace folder found" }
    else if s.error = some StatsError.NO_REPO then
      { text := "$(git-commit) Git: No repo"
        tooltip := "No git repository found" }
    else
      { text := renderStatsText s, tooltip := renderStatsTooltip s }

/-! ## Field shape of a numstat numeric column

A numstat line carries, in each of its two numeric columns, either a run of
decimal digits or the single dash that git emits for binary files. -/

/-- Shape of a numeric field of git numstat output: a digit run (possibly
empty for a malformed line) or the binary-file dash. -/
def NumstatField (s : String) : Prop :=
  s = "-" ∨ ∀ c ∈ s.data, c.isDigit = true

/-! ## Concrete environments used to instantiate the theorems -/

/-- A 42-line content in the split-on-newline counting: 41 newlines. -/
def content42 : String :=
  String.mk (List.replicate 41 '\n')

/-- A 150-line content in the split-on-newline counting: 149 newlines. -/
def content150 : String :=
  String.mk (List.replicate 149 '\n')

/-- Scenario B: one unstaged modified file with 15 added and 5 deleted lines, nothing staged. -/
def envScenB : GitEnv :=
  { rootPath := some "/w"
    isRepo := true
    workingDiff := some "15\t5\tsrc/app.ts"
    statusFiles := some [⟨"src/app.ts", ' ', 'M'⟩]
    stagedDiff := some ""
    disk := fun _ => some "x\ny"
    showHEAD := fun _ => none
    logFollow := fun _ => none
    showAt := fun _ _ => none }

/-- The pass result for scenario B. -/
def statsScenB : LineStats :=
  mkSuccessStats envScenB "15\t5\tsrc/app.ts" [⟨"src/app.ts", ' ', 'M'⟩] ""

/-- Scenario C: staged 5 added 3 deleted and unstaged 10 added 2 deleted. -/
def envScenC : GitEnv :=
  { rootPath := some "/w"
    isRepo := true
    workingDiff := some "10\t2\tb.txt"
    statusFiles := some [⟨"a.txt", 'M', ' '⟩, ⟨"b.txt", ' ', 'M'⟩]
    stagedDiff := some "5\t3\ta.txt"
    disk := fun _ => some "x\ny"
    showHEAD := fun _ => none
    logFollow := fun _ => none
    showAt := fun _ _ => none }

/-- The pass result for scenario C. -/
def statsScenC : LineStats :=
  mkSuccessStats envScenC "10\t2\tb.txt"
    [⟨"a.txt", 'M', ' '⟩, ⟨"b.txt", ' ', 'M'⟩] "5\t3\ta.txt"

/-- Scenario D: a single untracked file with 150 lines of content. -/
def envScenD : GitEnv :=
  { rootPath := some "/w"
    isRepo := true
    workingDiff := some ""
    statusFiles := some [⟨"new.txt", '?', '?'⟩]
    stagedDiff := some ""
    disk := fun p => if p == "new.txt" then some content150 else none
    showHEAD := fun _ => none
    logFollow := fun _ => none
    showAt := fun _ _ => none }

/-- The pass result for scenario D. -/
def statsScenD : LineStats :=
  mkSuccessStats envScenD "" [⟨"new.txt", '?', '?'⟩] ""

/-- A pass with both areas changed and an untracked file, for the sum
identities. -/
def envSum : GitEnv :=
  { rootPath := some "/w"
    isRepo := true
    workingDiff := some "3\t1\ta.txt"
    statusFiles := some [⟨"a.txt", ' ', 'M'⟩, ⟨"b.txt", 'M', ' '⟩, ⟨"u.txt", '?', '?'⟩]
    stagedDiff := some "4\t2\tb.txt"
    disk := fun p => if p == "u.txt" then some "1\n2" else some "x\ny"
    showHEAD := fun _ => none
    logFollow := fun _ => none
    showAt := fun _ _ => none }

/-- The pass result for the sum environment. -/
def statsSum : LineStats :=
  mkSuccessStats envSum "3\t1\ta.txt"
    [⟨"a.txt", ' ', 'M'⟩, ⟨"b.txt", 'M', ' '⟩, ⟨"u.txt", '?', '?'⟩] "4\t2\tb.txt"

/-- Scenario A: a clean repository, nothing changed anywhere. -/
def envCleanRepo : GitEnv :=
  { rootPath := some "/w"
    isRepo := true
    workingDiff := some ""
    statusFiles := some []
    stagedDiff := some ""
    disk := fun _ => none
    showHEAD := fun _ => none
    logFollow := fun _ => none
    showAt := fun _ _ => none }

/-- The pass result for the clean repository. -/
def statsCleanRepo : LineStats :=
  mkSuccessStats envCleanRepo "" [] ""

/-- A pass whose two nets are zero although a file changed: one unstaged
file with 5 added and 5 deleted lines. -/
def envMixZero : GitEnv :=
  { rootPath := some "/w"
    isRepo := true
    workingDiff := some "5\t5\ta.txt"
    statusFiles := some [⟨"a.txt", ' ', 'M'⟩]
    stagedDiff := some ""
    disk := fun _ => some "x"
    showHEAD := fun _ => none
    logFollow := fun _ => none
    showAt := fun _ _ => none }

/-- The pass result for the zero-net environment. -/
def statsMixZero : LineStats :=
  mkSuccessStats envMixZero "5\t5\ta.txt" [⟨"a.txt", ' ', 'M'⟩] ""

/-- No workspace root available. -/
def envNoWs : GitEnv :=
  { rootPath := none
    isRepo := false
    workingDiff := none
    statusFiles := none
    stagedDiff := none
    disk := fun _ => none
    showHEAD := fun _ => none
    logFollow := fun _ => none
    showAt := fun _ _ => none }

/-- A workspace root that is not a git repository. -/
def envNoRepo : GitEnv :=
  { rootPath := some "/w"
    isRepo := false
    workingDiff := none
    statusFiles := none
    stagedDiff := none
    disk := fun _ => none
    showHEAD := fun _ => none
    logFollow := fun _ => none
    showAt := fun _ _ => none }

/-- A repository whose collection calls throw. -/
def envGitFail : GitEnv :=
  { rootPath := some "/w"
    isRepo := true
    workingDiff := none
    statusFiles := none
    stagedDiff := none
    disk := fun _ => none
    showHEAD := fun _ => none
    logFollow := fun _ => none
    showAt := fun _ _ => none }

/-- An environment exercising every stage of the total-line resolution
chain on four different paths. -/
def envResolve : GitEnv :=
  { rootPath := some "/w"
    isRepo := true
    workingDiff := some ""
    statusFiles := some []
    stagedDiff := some ""
    disk := fun p => if p == "ondisk.txt" then some "a\nb\nc" else none
    showHEAD := fun p => if p == "inhead.txt" then some "x\ny" else none
    logFollow := fun p =>
      if p == "old.txt" then some ["c1"]
      else if p == "gone.txt" then some [] else none
    showAt := fun h p =>
      if h == "c1" && p == "old.txt" then some "z" else none }

/-- A deleted file whose content survives only in HEAD, with 42 lines. -/
def envHead42 : GitEnv :=
  { rootPath := some "/w"
    isRepo := true
    workingDiff := some ""
    statusFiles := some []
    stagedDiff := some ""
    disk := fun _ => none
    showHEAD := fun p => if p == "gone.txt" then some content42 else none
    logFollow := fun _ => none
    showAt := fun _ _ => none }

/-! ## Helper lemmas -/

/-- The stable sort is a permutation of its input. -/
theorem sortByNetDesc_perm (l : List FileChange) : List.Perm (sortByNetDesc l) l :=
  List.mergeSort_perm l _

/-- The comparator of sortByNetDesc is transitive. -/
theorem netDesc_trans (a b c : FileChange)
    (hab : decide (b.netLines ≤ a.netLines) = true)
    (hbc : decide (c.netLines ≤ b.netLines) = true) :
    decide (c.netLines ≤ a.netLines) = true := by
  simp only [decide_eq_true_eq] at *
  omega

/-- The comparator of sortByNetDesc is total. -/
theorem netDesc_total (a b : FileChange) :
    (decide (b.netLines ≤ a.netLines) || decide (a.netLines ≤ b.netLines)) = true := by
  simp only [Bool.or_eq_true, decide_eq_true_eq]
  omega

/-- The sorted output is ordered by netLines descending. -/
theorem sortByNetDesc_pairwise (l : List FileChange) :
    (sortByNetDesc l).Pairwise (fun a b => b.netLines ≤ a.netLines) := by
  have h := @List.sorted_mergeSort FileChange
    (fun a b : FileChange => decide (b.netLines ≤ a.netLines))
    netDesc_trans netDesc_total l
  exact h.imp (fun hab => of_decide_eq_true hab)

/-- Stability of the stable merge sort, phrased through filters: a class of
pairwise-tied elements keeps its input order. -/
theorem filter_mergeSort_of_tied {α : Type} (le : α → α → Bool) (p : α → Bool)
    (htrans : ∀ a b c : α, le a b = true → le b c = true → le a c = true)
    (htotal : ∀ a b : α, (le a b || le b a) = true)
    (htied : ∀ a b : α, p a = true → p b = true → le a b = true)
    (l : List α) :
    (l.mergeSort le).filter p = l.filter p := by
  have hpair : (l.filter p).Pairwise (fun a b => le a b = true) :=
    List.pairwise_of_forall_mem_list (fun a ha b hb =>
      htied a b (List.of_mem_filter ha) (List.of_mem_filter hb))
  have hsub : List.Sublist (l.filter p) (l.mergeSort le) :=
    List.sublist_mergeSort htrans htotal hpair (List.filter_sublist l)
  have hself : (l.filter p).filter p = l.filter p :=
    List.filter_eq_self.mpr (fun a ha => List.of_mem_filter ha)
  have hsub2 : List.Sublist (l.filter p) ((l.mergeSort le).filter p) := by
    have h2 := hsub.filter p
    rwa [hself] at h2
  have hperm : List.Perm ((l.mergeSort le).filter p) (l.filter p) :=
    (List.mergeSort_perm l le).filter p
  exact (hsub2.eq_of_length hperm.length_eq.symm).symm

/-- Files of any fixed netLines value keep their construction order through
sortByNetDesc. -/
theorem sortByNetDesc_filter (l : List FileChange) (n : Int) :
    (sortByNetDesc l).filter (fun f => f.netLines == n)
      = l.filter (fun f => f.netLines == n) := by
  refine filter_mergeSort_of_tied _ _ netDesc_trans netDesc_total ?_ l
  intro a b ha hb
  simp only [beq_iff_eq] at ha hb
  simp [ha, hb]

/-- Summing a field over an appended list. -/
theorem sumIntBy_append (f : α → Int) (l₁ l₂ : List α) :
    sumIntBy f (l₁ ++ l₂) = sumIntBy f l₁ + sumIntBy f l₂ := by
  simp [sumIntBy]

/-- Summing a field is invariant under permutation. -/
theorem sumIntBy_perm (f : α → Int) {l₁ l₂ : List α} (h : List.Perm l₁ l₂) :
    sumIntBy f l₁ = sumIntBy f l₂ :=
  (h.map f).sum_eq

/-- Summing a field over a mapped list. -/
theorem sumIntBy_map (f : β → Int) (g : α → β) (l : List α) :
    sumIntBy f (l.map g) = sumIntBy (fun x => f (g x)) l := by
  simp only [sumIntBy, List.map_map]
  rfl

/-- Summing the zero field gives zero. -/
theorem sumIntBy_zero (l : List α) : sumIntBy (fun _ => (0 : Int)) l = 0 := by
  induction l with
  | nil => rfl
  | cons a l ih => simp [sumIntBy] at ih
                   simp [sumIntBy, ih]

/-- Inversion of a successful pass: an error-free result arises exactly on
the path where the root exists, the root is a repository and the three
collection calls succeed, and it is the mkSuccessStats record. -/
theorem getLineStats_some_inv (env : GitEnv) (s : LineStats)
    (h : getLineStats env = some s) (he : s.error = none) :
    ∃ r wd files sd, env.rootPath = some r ∧ env.isRepo = true
      ∧ env.workingDiff = some wd ∧ env.statusFiles = some files
      ∧ env.stagedDiff = some sd ∧ s = mkSuccessStats env wd files sd := by
  cases hr : env.rootPath with
  | none =>
    simp only [getLineStats, hr, Option.some.injEq] at h
    rw [← h] at he
    simp [emptyStatsWith] at he
  | some r =>
    cases hrepo : env.isRepo with
    | false =>
      simp only [getLineStats, hr, hrepo, Bool.false_eq_true, if_false,
        Option.some.injEq] at h
      rw [← h] at he
      simp [emptyStatsWith] at he
    | true =>
      cases hw : env.workingDiff with
      | none =>
        simp [getLineStats, hr, hrepo, hw] at h
      | some wd =>
        cases hf : env.statusFiles with
        | none => simp [getLineStats, hr, hrepo, hw, hf] at h
        | some files =>
          cases hsd : env.stagedDiff with
          | none => simp [getLineStats, hr, hrepo, hw, hf, hsd] at h
          | some sd =>
            simp only [getLineStats, hr, hrepo, if_true, hw, hf, hsd,
              Option.some.injEq] at h
            exact ⟨r, wd, files, sd, rfl, rfl, rfl, rfl, rfl, h.symm⟩

/-- The empty list is already sorted. -/
theorem sortByNetDesc_nil : sortByNetDesc [] = [] := by
  simp [sortByNetDesc]

/-- A singleton is already sorted. -/
theorem sortByNetDesc_singleton (a : FileChange) : sortByNetDesc [a] = [a] := by
  simp [sortByNetDesc]

/-- On an error-free pass result the display is the numeric rendering. -/
theorem updateStatusBar_of_no_error (s : LineStats) (he : s.error = none) :
    updateStatusBarDisplay (some s)
      = { text := renderStatsText s, tooltip := renderStatsTooltip s } := by
  simp [updateStatusBarDisplay, he]

/-- A digit character is not whitespace. -/
theorem digit_not_whitespace {c : Char} (h : c.isDigit = true) :
    c.isWhitespace = false := by
  by_contra hb
  rw [Bool.not_eq_false] at hb
  have hcases : ((c = ' ' ∨ c = '\t') ∨ c = '\r') ∨ c = '\n' := by
    simpa [Char.isWhitespace, Bool.or_eq_true, decide_eq_true_eq] using hb
  rcases hcases with ((rfl | rfl) | rfl) | rfl <;> exact absurd h (by decide)

/-- A digit character is not the minus sign. -/
theorem digit_ne_minus {c : Char} (h : c.isDigit = true) : (c == '-') = false := by
  by_contra hb
  rw [Bool.not_eq_false, beq_iff_eq] at hb
  subst hb
  exact absurd h (by decide)

/-- A digit character is not the plus sign. -/
theorem digit_ne_plus {c : Char} (h : c.isDigit = true) : (c == '+') = false := by
  by_contra hb
  rw [Bool.not_eq_false, beq_iff_eq] at hb
  subst hb
  exact absurd h (by decide)

/-- takeWhile keeps a list all of whose elements satisfy the test. -/
theorem takeWhile_all {α : Type} {p : α → Bool} :
    ∀ {l : List α}, (∀ a ∈ l, p a = true) → l.takeWhile p = l
  | [], _ => rfl
  | a :: l, h => by
    rw [List.takeWhile_cons, h a (List.mem_cons_self a l), if_pos rfl,
      takeWhile_all (fun b hb => h b (List.mem_cons_of_mem a hb))]

/-- An unparsable numeric field is mapped to zero. -/
theorem parseIntOr0_of_none {s : String} (h : jsParseInt s = none) :
    parseIntOr0 s = 0 := by
  simp [parseIntOr0, h]

/-- A numeric field made of digits parses to a non-negative value. -/
theorem parseIntOr0_nonneg_of_digits {s : String}
    (h : ∀ c ∈ s.data, c.isDigit = true) : 0 ≤ parseIntOr0 s := by
  unfold parseIntOr0 jsParseInt
  cases hd : s.data with
  | nil => simp
  | cons c rest =>
    rw [hd] at h
    have hc : c.isDigit = true := h c (List.mem_cons_self c rest)
    have htw : (c :: rest).takeWhile Char.isDigit = c :: rest := takeWhile_all h
    simp only [hd, List.dropWhile_cons, digit_not_whitespace hc,
      Bool.false_eq_true, if_false, digit_ne_minus hc, digit_ne_plus hc, htw]
    simp

/-- Any numstat numeric field is mapped to a non-negative value. -/
theorem parseIntOr0_nonneg_of_field {s : String} (h : NumstatField s) :
    0 ≤ parseIntOr0 s := by
  rcases h with rfl | h
  · decide
  · exact parseIntOr0_nonneg_of_digits h

/-- C1: on every successful pass (no error), changesLinesAdded is the sum
of linesAdded over changesFiles, changesLinesDeleted the sum of
linesDeleted over changesFiles, and the two staged identities hold as well;
the untracked files contribute their resolved total line count both to the
changes sum and as their record linesAdded. -/
theorem getLineStats_sum_identities (env : GitEnv) (s : LineStats)
    (h : getLineStats env = some s) (he : s.error = none) :
    s.changesLinesAdded = sumIntBy (fun f => f.linesAdded) s.changesFiles
    ∧ s.changesLinesDeleted = sumIntBy (fun f => f.linesDeleted) s.changesFiles
    ∧ s.stagedLinesAdded = sumIntBy (fun f => f.linesAdded) s.stagedFiles
    ∧ s.stagedLinesDeleted = sumIntBy (fun f => f.linesDeleted) s.stagedFiles := by
  obtain ⟨r, wd, files, sd, hr, hrepo, hw, hf, hsd, rfl⟩ :=
    getLineStats_some_inv env s h he
  refine ⟨?_, ?_, ?_, ?_⟩
  · show changesAddedAcc env wd files
      = sumIntBy (fun f => f.linesAdded) (sortByNetDesc (changesRawFiles env wd files))
    rw [sumIntBy_perm _ (sortByNetDesc_perm _)]
    show _ = sumIntBy (fun f => f.linesAdded)
      ((diffLines wd).map (mkDiffFileChange env files (fun f => f.working_dir))
        ++ (untrackedOf files).map (mkUntrackedFileChange env))
    rw [sumIntBy_append, sumIntBy_map, sumIntBy_map]
    rfl
  · show changesDeletedAcc wd
      = sumIntBy (fun f => f.linesDeleted) (sortByNetDesc (changesRawFiles env wd files))
    rw [sumIntBy_perm _ (sortByNetDesc_perm _)]
    show _ = sumIntBy (fun f => f.linesDeleted)
      ((diffLines wd).map (mkDiffFileChange env files (fun f => f.working_dir))
        ++ (untrackedOf files).map (mkUntrackedFileChange env))
    rw [sumIntBy_append, sumIntBy_map, sumIntBy_map]
    have hz : sumIntBy
        (fun x => (mkUntrackedFileChange env x).linesDeleted) (untrackedOf files)
        = 0 := sumIntBy_zero (untrackedOf files)
    rw [hz, add_zero]
    rfl
  · show stagedAddedAcc sd
      = sumIntBy (fun f => f.linesAdded) (sortByNetDesc (stagedRawFiles env sd files))
    rw [sumIntBy_perm _ (sortByNetDesc_perm _)]
    show _ = sumIntBy (fun f => f.linesAdded)
      ((diffLines sd).map (mkDiffFileChange env files (fun f => f.index)))
    rw [sumIntBy_map]
    rfl
  · show stagedDeletedAcc sd
      = sumIntBy (fun f => f.linesDeleted) (sortByNetDesc (stagedRawFiles env sd files))
    rw [sumIntBy_perm _ (sortByNetDesc_perm _)]
    show _ = sumIntBy (fun f => f.linesDeleted)
      ((diffLines sd).map (mkDiffFileChange env files (fun f => f.index)))
    rw [sumIntBy_map]
    rfl

/-- Witness for the sum identities on a pass with both areas changed and
an untracked file. -/
theorem getLineStats_sum_identities_witness :
    statsSum.changesLinesAdded
      = sumIntBy (fun f => f.linesAdded) statsSum.changesFiles
    ∧ statsSum.changesLinesDeleted
      = sumIntBy (fun f => f.linesDeleted) statsSum.changesFiles
    ∧ statsSum.stagedLinesAdded
      = sumIntBy (fun f => f.linesAdded) statsSum.stagedFiles
    ∧ statsSum.stagedLinesDeleted
      = sumIntBy (fun f => f.linesDeleted) statsSum.stagedFiles :=
  getLineStats_sum_identities envSum statsSum rfl rfl

/-- C2: on every pass both per-area file sequences are sorted by netLines
descending (every later file has a net no larger than any earlier one,
hence all adjacent pairs satisfy the inequality), and the sort is stable:
for every net value, the files carrying it appear in the order in which
the pass constructed them (numstat records first, in diff order, then
untracked records in status order). -/
theorem getLineStats_sorted_and_stable (env : GitEnv) (s : LineStats)
    (wd : String) (files : List StatusFile) (sd : String)
    (hw : env.workingDiff = some wd) (hf : env.statusFiles = some files)
    (hsd : env.stagedDiff = some sd)
    (h : getLineStats env = some s) (he : s.error = none) :
    s.changesFiles.Pairwise (fun a b => b.netLines ≤ a.netLines)
    ∧ s.stagedFiles.Pairwise (fun a b => b.netLines ≤ a.netLines)
    ∧ (∀ n : Int, s.changesFiles.filter (fun f => f.netLines == n)
        = (changesRawFiles env wd files).filter (fun f => f.netLines == n))
    ∧ (∀ n : Int, s.stagedFiles.filter (fun f => f.netLines == n)
        = (stagedRawFiles env sd files).filter (fun f => f.netLines == n)) := by
  obtain ⟨r, wd2, files2, sd2, hr, hrepo, hw2, hf2, hsd2, rfl⟩ :=
    getLineStats_some_inv env s h he
  rw [hw] at hw2
  injection hw2 with hww
  rw [hf] at hf2
  injection hf2 with hff
  rw [hsd] at hsd2
  injection hsd2 with hss
  subst hww
  subst hff
  subst hss
  exact ⟨sortByNetDesc_pairwise _, sortByNetDesc_pairwise _,
    fun n => sortByNetDesc_filter _ n, fun n => sortByNetDesc_filter _ n⟩

/-- Witness for sortedness and stability at the two-area scenario pass. -/
theorem getLineStats_sorted_and_stable_witness :
    statsScenC.changesFiles.Pairwise (fun a b => b.netLines ≤ a.netLines)
    ∧ statsScenC.stagedFiles.Pairwise (fun a b => b.netLines ≤ a.netLines)
    ∧ (∀ n : Int, statsScenC.changesFiles.filter (fun f => f.netLines == n)
        = (changesRawFiles envScenC "10\t2\tb.txt"
            [⟨"a.txt", 'M', ' '⟩, ⟨"b.txt", ' ', 'M'⟩]).filter
          (fun f => f.netLines == n))
    ∧ (∀ n : Int, statsScenC.stagedFiles.filter (fun f => f.netLines == n)
        = (stagedRawFiles envScenC "5\t3\ta.txt"
            [⟨"a.txt", 'M', ' '⟩, ⟨"b.txt", ' ', 'M'⟩]).filter
          (fun f => f.netLines == n)) :=
  getLineStats_sorted_and_stable envScenC statsScenC "10\t2\tb.txt"
    [⟨"a.txt", 'M', ' '⟩, ⟨"b.txt", ' ', 'M'⟩] "5\t3\ta.txt"
    rfl rfl rfl rfl rfl

/-- C3: on a successful pass with both nets nonzero, the status text is the
labelled staged segment, the comma-separated labelled changes segment, and
the total segment. -/
theorem updateStatusBar_both_areas (env : GitEnv) (s : LineStats)
    (h : getLineStats env = some s) (he : s.error = none)
    (hs : stagedNet s ≠ 0) (hc : changesNet s ≠ 0) :
    (updateStatusBarDisplay (some s)).text
      = "$(git-commit) "
        ++ (("Staged:" ++ signed (stagedNet s) ++ " (+"
            ++ toString s.stagedLinesAdded ++ "-"
            ++ toString s.stagedLinesDeleted ++ ")")
          ++ (", " ++ "Changes:" ++ signed (changesNet s) ++ " (+"
            ++ toString s.changesLinesAdded ++ "-"
            ++ toString s.changesLinesDeleted ++ ")")
          ++ (", Total:" ++ signed (changesNet s + stagedNet s) ++ " (+"
            ++ toString (s.stagedLinesAdded + s.changesLinesAdded) ++ "-"
            ++ toString (s.stagedLinesDeleted + s.changesLinesDeleted) ++ ")")) := by
  rw [updateStatusBar_of_no_error s he]
  show renderStatsText s = _
  have hclean : ¬(stagedNet s = 0 ∧ changesNet s = 0) := fun hh => hs hh.1
  have hsingle : ¬((stagedNet s ≠ 0 ∧ ¬changesNet s ≠ 0)
      ∨ (¬stagedNet s ≠ 0 ∧ changesNet s ≠ 0)) := by
    tauto
  simp only [renderStatsText, if_neg hclean, if_neg hsingle, if_pos hs,
    if_pos hc, if_pos (Or.inl hs : stagedNet s ≠ 0 ∨ changesNet s ≠ 0)]

/-- Witness for the two-area rendering: scenario C yields the exact
three-segment summary. -/
theorem updateStatusBar_both_areas_witness :
    (updateStatusBarDisplay (getLineStats envScenC)).text
      = "$(git-commit) Staged:+2 (+5-3), Changes:+8 (+10-2), Total:+10 (+15-5)" := by
  rw [show getLineStats envScenC = some statsScenC from rfl,
    updateStatusBar_both_areas envScenC statsScenC rfl rfl
      (by decide) (by decide)]
  decide

/-- C4: on a successful pass with exactly one nonzero-net area, the status
text is the unlabelled net and counts of that area, with no total segment. -/
theorem updateStatusBar_single_area (env : GitEnv) (s : LineStats)
    (h : getLineStats env = some s) (he : s.error = none)
    (hx : (stagedNet s ≠ 0 ∧ ¬changesNet s ≠ 0)
      ∨ (¬stagedNet s ≠ 0 ∧ changesNet s ≠ 0)) :
    (updateStatusBarDisplay (some s)).text
      = "$(git-commit) "
        ++ (signed (if stagedNet s ≠ 0 then stagedNet s else changesNet s)
          ++ " (+"
          ++ toString (if stagedNet s ≠ 0 then s.stagedLinesAdded
              else s.changesLinesAdded)
          ++ "-"
          ++ toString (if stagedNet s ≠ 0 then s.stagedLinesDeleted
              else s.changesLinesDeleted)
          ++ ")") := by
  rw [updateStatusBar_of_no_error s he]
  show renderStatsText s = _
  have hclean : ¬(stagedNet s = 0 ∧ changesNet s = 0) := by
    rcases hx with ⟨h1, _⟩ | ⟨_, h2⟩
    · exact fun hh => h1 hh.1
    · exact fun hh => h2 hh.2
  simp only [renderStatsText, if_neg hclean, if_pos hx]

/-- Witness for the single-area rendering: scenario B yields exactly the
unlabelled summary. -/
theorem updateStatusBar_single_area_witness :
    (updateStatusBarDisplay (getLineStats envScenB)).text
      = "$(git-commit) +10 (+15-5)" := by
  rw [show getLineStats envScenB = some statsScenB from rfl,
    updateStatusBar_single_area envScenB statsScenB rfl rfl (by decide)]
  decide

/-- Counterexample to C5 as stated: a successful pass whose two nets are
both zero (one unstaged file with 5 added and 5 deleted lines) but whose
tooltip is not the three zero headers without file rows. -/
theorem updateStatusBar_clean_tooltip_counterexample :
    getLineStats envMixZero = some statsMixZero
    ∧ statsMixZero.error = none
    ∧ stagedNet statsMixZero = 0
    ∧ changesNet statsMixZero = 0
    ∧ (updateStatusBarDisplay (some statsMixZero)).tooltip
        ≠ "Staged: +0 (+0-0)\n\nChanges: +0 (+0-0)\n\nTotal: +0 (+0-0)" := by
  have h1 : statsMixZero.changesFiles
      = [mkDiffFileChange envMixZero [⟨"a.txt", ' ', 'M'⟩]
          (fun f => f.working_dir) "5\t5\ta.txt"] := by
    show sortByNetDesc (changesRawFiles envMixZero "5\t5\ta.txt"
      [⟨"a.txt", ' ', 'M'⟩]) = _
    rw [show changesRawFiles envMixZero "5\t5\ta.txt" [⟨"a.txt", ' ', 'M'⟩]
        = [mkDiffFileChange envMixZero [⟨"a.txt", ' ', 'M'⟩]
            (fun f => f.working_dir) "5\t5\ta.txt"] from rfl]
    exact sortByNetDesc_singleton _
  have h2 : statsMixZero.stagedFiles = [] := by
    show sortByNetDesc (stagedRawFiles envMixZero "" [⟨"a.txt", ' ', 'M'⟩]) = _
    rw [show stagedRawFiles envMixZero "" [⟨"a.txt", ' ', 'M'⟩] = [] from rfl]
    exact sortByNetDesc_nil
  refine ⟨rfl, rfl, by decide, by decide, ?_⟩
  rw [show (updateStatusBarDisplay (some statsMixZero)).tooltip
      = renderStatsTooltip statsMixZero from rfl]
  unfold renderStatsTooltip
  rw [h1, h2]
  decide

/-- C5 amended: on every successful pass with both nets zero the status
text is the icon token followed by the literal `Clean` and nothing else;
the tooltip claim holds for the passes the scenario describes, namely
those that also recorded no file and zero added/deleted sums, where it is
the three zero headers with no file rows. -/
theorem updateStatusBar_clean (env : GitEnv) (s : LineStats)
    (h : getLineStats env = some s) (he : s.error = none)
    (hs : stagedNet s = 0) (hc : changesNet s = 0) :
    (updateStatusBarDisplay (some s)).text = "$(git-commit) Clean"
    ∧ (s.changesFiles = [] → s.stagedFiles = [] →
      s.changesLinesAdded = 0 → s.changesLinesDeleted = 0 →
      s.stagedLinesAdded = 0 → s.stagedLinesDeleted = 0 →
      (updateStatusBarDisplay (some s)).tooltip
        = "Staged: +0 (+0-0)\n\nChanges: +0 (+0-0)\n\nTotal: +0 (+0-0)") := by
  have hsne : ¬stagedNet s ≠ 0 := fun hh => hh hs
  have hcne : ¬changesNet s ≠ 0 := fun hh => hh hc
  constructor
  · rw [updateStatusBar_of_no_error s he]
    show renderStatsText s = _
    have hsingle : ¬((stagedNet s ≠ 0 ∧ ¬changesNet s ≠ 0)
        ∨ (¬stagedNet s ≠ 0 ∧ changesNet s ≠ 0)) := by
      tauto
    have hor : ¬(stagedNet s ≠ 0 ∨ changesNet s ≠ 0) := by
      tauto
    simp only [renderStatsText, if_pos (And.intro hs hc), if_neg hsingle,
      if_neg hsne, if_neg hcne, if_neg hor]
    decide
  · intro hcf hsf ha hb hsa hsb
    rw [updateStatusBar_of_no_error s he]
    show renderStatsTooltip s = _
    unfold renderStatsTooltip
    rw [hcf, hsf, hs, hc, ha, hb, hsa, hsb]
    decide

/-- Witness for the amended clean rendering at the clean-repository pass. -/
theorem updateStatusBar_clean_witness :
    (updateStatusBarDisplay (getLineStats envCleanRepo)).text
      = "$(git-commit) Clean"
    ∧ (updateStatusBarDisplay (getLineStats envCleanRepo)).tooltip
        = "Staged: +0 (+0-0)\n\nChanges: +0 (+0-0)\n\nTotal: +0 (+0-0)" := by
  have hcf : statsCleanRepo.changesFiles = [] := by
    show sortByNetDesc (changesRawFiles envCleanRepo "" []) = _
    rw [show changesRawFiles envCleanRepo "" [] = [] from rfl]
    exact sortByNetDesc_nil
  have hsf : statsCleanRepo.stagedFiles = [] := by
    show sortByNetDesc (stagedRawFiles envCleanRepo "" []) = _
    rw [show stagedRawFiles envCleanRepo "" [] = [] from rfl]
    exact sortByNetDesc_nil
  have h := updateStatusBar_clean envCleanRepo statsCleanRepo rfl rfl
    (by decide) (by decide)
  rw [show getLineStats envCleanRepo = some statsCleanRepo from rfl]
  exact ⟨h.1, h.2 hcf hsf (by decide) (by decide) (by decide) (by decide)⟩

/-- C6: the three failure kinds render as three distinct status texts: a
missing workspace root yields the NO_WORKSPACE state shown as
`Git: No workspace`, a non-repository root yields the NO_REPO state shown
as `Git: No repo`, a collection call that throws collapses the pass to a
null result shown as `Git: Error`; the two explicit states carry zero sums
and empty file lists. -/
theorem error_state_rendering (env : GitEnv) :
    (env.rootPath = none →
      getLineStats env = some (emptyStatsWith StatsError.NO_WORKSPACE)
      ∧ (updateStatusBarDisplay (getLineStats env)).text
          = "$(git-commit) Git: No workspace")
    ∧ (∀ r, env.rootPath = some r → env.isRepo = false →
      getLineStats env = some (emptyStatsWith StatsError.NO_REPO)
      ∧ (updateStatusBarDisplay (getLineStats env)).text
          = "$(git-commit) Git: No repo")
    ∧ (∀ r, env.rootPath = some r → env.isRepo = true →
      (env.workingDiff = none ∨ env.statusFiles = none ∨ env.stagedDiff = none) →
      getLineStats env = none
      ∧ (updateStatusBarDisplay (getLineStats env)).text
          = "$(git-commit) Git: Error")
    ∧ (∀ e, (emptyStatsWith e).changesLinesAdded = 0
      ∧ (emptyStatsWith e).changesLinesDeleted = 0
      ∧ (emptyStatsWith e).stagedLinesAdded = 0
      ∧ (emptyStatsWith e).stagedLinesDeleted = 0
      ∧ (emptyStatsWith e).changesFiles = []
      ∧ (emptyStatsWith e).stagedFiles = []) := by
  refine ⟨?_, ?_, ?_, ?_⟩
  · intro hr
    have hg : getLineStats env = some (emptyStatsWith StatsError.NO_WORKSPACE) := by
      simp [getLineStats, hr]
    exact ⟨hg, by rw [hg]; decide⟩
  · intro r hr hrepo
    have hg : getLineStats env = some (emptyStatsWith StatsError.NO_REPO) := by
      simp [getLineStats, hr, hrepo]
    exact ⟨hg, by rw [hg]; decide⟩
  · intro r hr hrepo hone
    have hg : getLineStats env = none := by
      cases hw : env.workingDiff with
      | none => simp [getLineStats, hr, hrepo, hw]
      | some wd =>
        cases hf : env.statusFiles with
        | none => simp [getLineStats, hr, hrepo, hw, hf]
        | some files =>
          cases hsd : env.stagedDiff with
          | none => simp [getLineStats, hr, hrepo, hw, hf, hsd]
          | some sd =>
            rcases hone with h1 | h1 | h1
            · rw [hw] at h1; cases h1
            · rw [hf] at h1; cases h1
            · rw [hsd] at h1; cases h1
    exact ⟨hg, by rw [hg]; decide⟩
  · intro e
    exact ⟨rfl, rfl, rfl, rfl, rfl, rfl⟩

/-- Witness for the three failure renderings at three concrete
failing environments. -/
theorem error_state_rendering_witness :
    (updateStatusBarDisplay (getLineStats envNoWs)).text
      = "$(git-commit) Git: No workspace"
    ∧ (updateStatusBarDisplay (getLineStats envNoRepo)).text
      = "$(git-commit) Git: No repo"
    ∧ (updateStatusBarDisplay (getLineStats envGitFail)).text
      = "$(git-commit) Git: Error" :=
  ⟨((error_state_rendering envNoWs).1 rfl).2,
    ((error_state_rendering envNoRepo).2.1 "/w" rfl rfl).2,
    ((error_state_rendering envGitFail).2.2.1 "/w" rfl rfl (Or.inl rfl)).2⟩

/-- C7: total-line resolution follows the disk, HEAD, history chain, and
degrades to 0 when every lookup fails; the function is total, so no error
is ever propagated to the caller. -/
theorem getFileTotalLines_chain (env : GitEnv) (p r : String)
    (hr : env.rootPath = some r) :
    (∀ c, env.disk p = some c → getFileTotalLines env p = countLines c)
    ∧ (env.disk p = none → ∀ c, env.showHEAD p = some c →
      getFileTotalLines env p = countLines c)
    ∧ (env.disk p = none → env.showHEAD p = none →
      ∀ h t c, env.logFollow p = some (h :: t) → env.showAt h p = some c →
      getFileTotalLines env p = countLines c)
    ∧ (env.disk p = none → env.showHEAD p = none →
      (env.logFollow p = none ∨ env.logFollow p = some []
        ∨ (∀ h t, env.logFollow p = some (h :: t) → env.showAt h p = none)) →
      getFileTotalLines env p = 0) := by
  refine ⟨?_, ?_, ?_, ?_⟩
  · intro c hd
    simp [getFileTotalLines, hr, hd]
  · intro hd c hh
    simp [getFileTotalLines, getDeletedFileLinesFromGit, hr, hd, hh]
  · intro hd hh h t c hl ha
    simp [getFileTotalLines, getDeletedFileLinesFromGit, hr, hd, hh, hl, ha]
  · intro hd hh hfail
    rcases hfail with hl | hl | hl
    · simp [getFileTotalLines, getDeletedFileLinesFromGit, hr, hd, hh, hl]
    · simp [getFileTotalLines, getDeletedFileLinesFromGit, hr, hd, hh, hl]
    · cases hlog : env.logFollow p with
      | none => simp [getFileTotalLines, getDeletedFileLinesFromGit, hr, hd, hh, hlog]
      | some l =>
        cases l with
        | nil => simp [getFileTotalLines, getDeletedFileLinesFromGit, hr, hd, hh, hlog]
        | cons hd2 tl =>
          simp [getFileTotalLines, getDeletedFileLinesFromGit, hr, hd, hh, hlog,
            hl hd2 tl hlog]

/-- Witness for the resolution chain: each stage exercised on a concrete
path of the resolution environment. -/
theorem getFileTotalLines_chain_witness :
    getFileTotalLines envResolve "ondisk.txt" = 3
    ∧ getFileTotalLines envResolve "inhead.txt" = 2
    ∧ getFileTotalLines envResolve "old.txt" = 1
    ∧ getFileTotalLines envResolve "gone.txt" = 0
    ∧ getFileTotalLines envResolve "nowhere.txt" = 0 := by
  refine ⟨?_, ?_, ?_, ?_, ?_⟩
  · rw [(getFileTotalLines_chain envResolve "ondisk.txt" "/w" rfl).1
      "a\nb\nc" rfl]
    decide
  · rw [(getFileTotalLines_chain envResolve "inhead.txt" "/w" rfl).2.1
      rfl "x\ny" rfl]
    decide
  · rw [(getFileTotalLines_chain envResolve "old.txt" "/w" rfl).2.2.1
      rfl rfl "c1" [] "z" rfl rfl]
    decide
  · exact (getFileTotalLines_chain envResolve "gone.txt" "/w" rfl).2.2.2
      rfl rfl (Or.inr (Or.inl rfl))
  · exact (getFileTotalLines_chain envResolve "nowhere.txt" "/w" rfl).2.2.2
      rfl rfl (Or.inl rfl)

/-- C8: a deleted file, absent from disk but present in HEAD with 42 lines
under the split-on-newline counting (a trailing empty segment counts as a
line), resolves to 42 through the history-read fallback without an error. -/
theorem deleted_file_resolved_from_head (env : GitEnv) (p r c : String)
    (hr : env.rootPath = some r) (hd : env.disk p = none)
    (hh : env.showHEAD p = some c) (hc : countLines c = 42) :
    getFileTotalLines env p = 42 := by
  simp [getFileTotalLines, getDeletedFileLinesFromGit, hr, hd, hh, hc]

/-- Witness for the HEAD fallback: a 42-line content (41 newlines) behind
HEAD only. -/
theorem deleted_file_resolved_from_head_witness :
    countLines content42 = 42 ∧ getFileTotalLines envHead42 "gone.txt" = 42 :=
  ⟨by decide,
    deleted_file_resolved_from_head envHead42 "gone.txt" "/w" content42
      rfl rfl rfl (by decide)⟩

/-- C9: every untracked file of the status listing yields, in the changes
area of a successful pass, a record with status New, no deleted lines, and
its resolved total line count as linesAdded, netLines and totalLines. -/
theorem untracked_file_record (env : GitEnv) (s : LineStats)
    (wd : String) (files : List StatusFile) (sd : String) (f : StatusFile)
    (hw : env.workingDiff = some wd) (hf : env.statusFiles = some files)
    (hsd : env.stagedDiff = some sd)
    (h : getLineStats env = some s) (he : s.error = none)
    (hmem : f ∈ files) (hq : f.working_dir = '?') :
    ∃ fc, fc ∈ s.changesFiles ∧ fc.path = f.path
      ∧ fc.status = FileStatus.New ∧ fc.linesDeleted = 0
      ∧ fc.linesAdded = ((getFileTotalLines env f.path : Nat) : Int)
      ∧ fc.netLines = ((getFileTotalLines env f.path : Nat) : Int)
      ∧ fc.totalLines = getFileTotalLines env f.path := by
  obtain ⟨r, wd2, files2, sd2, hr, hrepo, hw2, hf2, hsd2, rfl⟩ :=
    getLineStats_some_inv env s h he
  rw [hf] at hf2
  injection hf2 with hff
  subst hff
  refine ⟨mkUntrackedFileChange env f, ?_, rfl, rfl, rfl, rfl, rfl, rfl⟩
  show mkUntrackedFileChange env f
    ∈ sortByNetDesc (changesRawFiles env wd2 files)
  unfold sortByNetDesc
  rw [List.mem_mergeSort]
  unfold changesRawFiles
  refine List.mem_append_right _ ?_
  refine List.mem_map_of_mem _ ?_
  exact List.mem_filter.mpr ⟨hmem, by simp [untrackedOf, hq]⟩

set_option maxRecDepth 8192 in
/-- Witness for the untracked record: scenario D, a single untracked file
whose 150-line content resolves to 150. -/
theorem untracked_file_record_witness :
    (∃ fc, fc ∈ statsScenD.changesFiles ∧ fc.path = "new.txt"
      ∧ fc.status = FileStatus.New ∧ fc.linesDeleted = 0
      ∧ fc.linesAdded = ((getFileTotalLines envScenD "new.txt" : Nat) : Int)
      ∧ fc.netLines = ((getFileTotalLines envScenD "new.txt" : Nat) : Int)
      ∧ fc.totalLines = getFileTotalLines envScenD "new.txt")
    ∧ getFileTotalLines envScenD "new.txt" = 150 :=
  ⟨untracked_file_record envScenD statsScenD "" [⟨"new.txt", '?', '?'⟩] ""
      ⟨"new.txt", '?', '?'⟩ rfl rfl rfl rfl rfl
      (List.mem_singleton.mpr rfl) rfl,
    by decide⟩

/-- C10: numstat parsing is total and safe: an unparsable numeric field
(such as the dash git emits for a binary file) is mapped to 0 rather than
failing, and on the digit-or-dash fields git emits both stored counts are
non-negative. -/
theorem numstat_parse_total (env : GitEnv) (files : List StatusFile)
    (slot : StatusFile → Char) (line : String) :
    (jsParseInt (numstatFields line).1 = none →
      (mkDiffFileChange env files slot line).linesAdded = 0)
    ∧ (jsParseInt (numstatFields line).2.1 = none →
      (mkDiffFileChange env files slot line).linesDeleted = 0)
    ∧ (NumstatField (numstatFields line).1 →
      0 ≤ (mkDiffFileChange env files slot line).linesAdded)
    ∧ (NumstatField (numstatFields line).2.1 →
      0 ≤ (mkDiffFileChange env files slot line).linesDeleted) := by
  refine ⟨?_, ?_, ?_, ?_⟩
  · intro hn
    show parseIntOr0 (numstatFields line).1 = 0
    exact parseIntOr0_of_none hn
  · intro hn
    show parseIntOr0 (numstatFields line).2.1 = 0
    exact parseIntOr0_of_none hn
  · intro hfield
    show 0 ≤ parseIntOr0 (numstatFields line).1
    exact parseIntOr0_nonneg_of_field hfield
  · intro hfield
    show 0 ≤ parseIntOr0 (numstatFields line).2.1
    exact parseIntOr0_nonneg_of_field hfield

/-- Witness for parse safety: the binary-file line maps both dashes to 0,
and a digit line stays non-negative. -/
theorem numstat_parse_total_witness :
    jsParseInt "-" = none
    ∧ (mkDiffFileChange envScenB [] (fun f => f.working_dir)
        "-\t-\tlogo.png").linesAdded = 0
    ∧ (mkDiffFileChange envScenB [] (fun f => f.working_dir)
        "-\t-\tlogo.png").linesDeleted = 0
    ∧ 0 ≤ (mkDiffFileChange envScenB [] (fun f => f.working_dir)
        "-\t-\tlogo.png").linesAdded
    ∧ 0 ≤ (mkDiffFileChange envScenB [] (fun f => f.working_dir)
        "7\t0\ta.txt").linesDeleted :=
  ⟨by decide,
    (numstat_parse_total envScenB [] (fun f => f.working_dir)
      "-\t-\tlogo.png").1 (by decide),
    (numstat_parse_total envScenB [] (fun f => f.working_dir)
      "-\t-\tlogo.png").2.1 (by decide),
    (numstat_parse_total envScenB [] (fun f => f.working_dir)
      "-\t-\tlogo.png").2.2.1 (Or.inl (by decide)),
    (numstat_parse_total envScenB [] (fun f => f.working_dir)
      "7\t0\ta.txt").2.2.2 (Or.inr (by decide))⟩
